import Mathlib

/-!
Shallow embedding of the railway crossing control system
(`src/api/server.py` and `src/core/fsm.py`).

Python floats are modelled as exact rationals (`ℚ`); every numeric claim
was checked to be exact at the claimed inputs under IEEE double arithmetic
as well.  Python `int(x)` (truncation toward zero) is `pyTrunc`.  The
`random` calls inside `RailwayCrossing.transition` are modelled by an
explicit `WearOracle` argument (whether `random.random() < 0.1` fired,
which component `random.choice` picked, and the `random.randint(1, 3)`
amount).  Wall-clock time (`datetime.now()`) is modelled by an explicit
`now : ℚ` argument; a crossing stores `last_state_change : ℚ`.
The `SystemLogger` only accumulates log text and is omitted.
-/

namespace Railway

/-- `CrossingState` enum of `src/api/server.py` (the 7-state live-API form). -/
inductive CState where
  | IDLE
  | WARNING
  | COUNTDOWN
  | BARRIER_DOWN
  | TRAIN_PASSING
  | EMERGENCY
  | MAINTENANCE
deriving DecidableEq, Repr

/-- `WeatherCondition` enum. -/
inductive Weather where
  | CLEAR
  | RAIN
  | FOG
  | STORM
deriving DecidableEq, Repr

/-- `self.weather_multipliers` dictionary (`server.py` lines 196-201). -/
def weatherMultiplier : Weather → ℚ
  | .CLEAR => 1
  | .RAIN => 13 / 10
  | .FOG => 3 / 2
  | .STORM => 9 / 5

/-- `WeatherCondition.value` strings. -/
def weatherName : Weather → String
  | .CLEAR => "CLEAR"
  | .RAIN => "RAIN"
  | .FOG => "FOG"
  | .STORM => "STORM"

/-- The four keys of `self.component_health` (`server.py` lines 188-193). -/
inductive Component where
  | barrier_motor
  | traffic_lights
  | alarm_system
  | sensors
deriving DecidableEq, Repr

/-- The `component_health` dict: its key set is fixed, so it is a record. -/
structure ComponentHealth where
  barrier_motor : Nat
  traffic_lights : Nat
  alarm_system : Nat
  sensors : Nat
deriving DecidableEq, Repr

def healthOf (h : ComponentHealth) : Component → Nat
  | .barrier_motor => h.barrier_motor
  | .traffic_lights => h.traffic_lights
  | .alarm_system => h.alarm_system
  | .sensors => h.sensors

def setHealth (h : ComponentHealth) : Component → Nat → ComponentHealth
  | .barrier_motor, v => { h with barrier_motor := v }
  | .traffic_lights, v => { h with traffic_lights := v }
  | .alarm_system, v => { h with alarm_system := v }
  | .sensors, v => { h with sensors := v }

/-- The `traffic_lights` dict `{'red': _, 'yellow': _, 'green': _}`. -/
structure TrafficLights where
  red : Bool
  yellow : Bool
  green : Bool
deriving DecidableEq, Repr

/-- Outcome of the random draws inside one `RailwayCrossing.transition` call:
`degrade` is `random.random() < 0.1`, `comp` is the `random.choice` over the
component keys, `amount` is `random.randint(1, 3)` (so `1 ≤ amount ≤ 3`). -/
structure WearOracle where
  degrade : Bool
  comp : Component
  amount : Nat
deriving DecidableEq, Repr

/-- State of one `RailwayCrossing` (`server.py` lines 167-193).  History
entries keep `(from, to, weather)`; the wall-clock timestamp string is
omitted.  `sensor_health` is an association list because `clear_faults`
replaces the dict with one having a different key set. -/
structure Crossing where
  state : CState
  barrier : String
  train_position : ℚ
  train_speed : ℚ
  train_distance : ℚ
  weather : Weather
  countdown : Int
  alarm : String
  traffic_lights : TrafficLights
  sensor_health : List (String × Bool)
  faults : List String
  state_history : List (CState × CState × Weather)
  last_state_change : ℚ
  operation_count : Nat
  component_health : ComponentHealth
deriving DecidableEq, Repr

/-- `RailwayCrossing.__init__` field values. -/
def initCrossing : Crossing where
  state := .IDLE
  barrier := "UP"
  train_position := -100
  train_speed := 0
  train_distance := 0
  weather := .CLEAR
  countdown := 10
  alarm := "SILENT"
  traffic_lights := ⟨false, false, true⟩
  sensor_health := [("ir", true), ("ultrasonic", true), ("vibration", true), ("rfid", true)]
  faults := []
  state_history := []
  last_state_change := 0
  operation_count := 0
  component_health := ⟨100, 100, 100, 100⟩

/-- Python `int(q)`: truncation toward zero. -/
def pyTrunc (q : ℚ) : Int :=
  if 0 ≤ q then ((q.num.toNat / q.den : Nat) : Int)
  else -(((-q).num.toNat / (-q).den : Nat) : Int)

/-- `RailwayCrossing.get_adjusted_time` (`server.py` lines 227-230):
`int(base_time * multiplier)`. -/
def get_adjusted_time (c : Crossing) (base : Int) : Int :=
  pyTrunc ((base : ℚ) * weatherMultiplier c.weather)

/-- The `valid_transitions` table inside `RailwayCrossing.transition`
(`server.py` lines 234-242). -/
def allowedTargets : CState → List CState
  | .IDLE => [.WARNING, .EMERGENCY, .MAINTENANCE]
  | .WARNING => [.COUNTDOWN, .IDLE, .EMERGENCY]
  | .COUNTDOWN => [.BARRIER_DOWN, .EMERGENCY]
  | .BARRIER_DOWN => [.TRAIN_PASSING, .EMERGENCY]
  | .TRAIN_PASSING => [.IDLE, .EMERGENCY]
  | .EMERGENCY => [.IDLE]
  | .MAINTENANCE => [.IDLE]

/-- `RailwayCrossing._update_outputs` (`server.py` lines 309-355). -/
def update_outputs (c : Crossing) : Crossing :=
  match c.state with
  | .IDLE =>
      { c with barrier := "UP", traffic_lights := ⟨false, false, true⟩,
               alarm := "SILENT", countdown := 10 }
  | .WARNING =>
      { c with barrier := "UP", traffic_lights := ⟨false, true, false⟩,
               alarm := "SLOW_BEEP", countdown := get_adjusted_time c 10 }
  | .COUNTDOWN =>
      { c with barrier := "UP", traffic_lights := ⟨true, false, false⟩,
               alarm := "FAST_BEEP" }
  | .BARRIER_DOWN =>
      { c with barrier := "DOWN", traffic_lights := ⟨true, false, false⟩,
               alarm := "CONTINUOUS" }
  | .TRAIN_PASSING =>
      { c with barrier := "DOWN", traffic_lights := ⟨true, false, false⟩,
               alarm := "SILENT" }
  | .EMERGENCY =>
      { c with barrier := "UP", traffic_lights := ⟨true, true, false⟩,
               alarm := "CONTINUOUS", train_position := -100 }
  | .MAINTENANCE =>
      { c with barrier := "UP", traffic_lights := ⟨false, false, false⟩,
               alarm := "SILENT" }

/-- The degradation step at the end of `RailwayCrossing.transition`
(`server.py` lines 292-297): with 10% probability pick a random component
and lower it by `randint(1,3)`, floored at 50. -/
def applyWear (c : Crossing) (o : WearOracle) : Crossing :=
  if o.degrade then
    let newValue := max 50 (healthOf c.component_health o.comp - o.amount)
    { c with component_health := setHealth c.component_health o.comp newValue }
  else c

/-- `RailwayCrossing.transition` (`server.py` lines 232-307).  Returns the
Python boolean result together with the updated crossing (unchanged on
failure). -/
def transition (c : Crossing) (new_state : CState) (now : ℚ) (o : WearOracle) :
    Bool × Crossing :=
  if new_state ∈ allowedTargets c.state then
    -- line 256: entering COUNTDOWN sets countdown before the state change
    let c1 := if new_state = .COUNTDOWN then { c with countdown := get_adjusted_time c 10 } else c
    let old := c1.state
    let c2 := { c1 with state := new_state, last_state_change := now }
    -- lines 273-281: append history entry, pop the front if length > 10
    let hist0 := c2.state_history ++ [(old, new_state, c2.weather)]
    let hist := if hist0.length > 10 then hist0.tail else hist0
    let c3 := { c2 with state_history := hist }
    let c4 := update_outputs c3
    let c5 := { c4 with operation_count := c4.operation_count + 1 }
    (true, applyWear c5 o)
  else
    (false, c)

/-- `RailwayCrossing.calculate_arrival_time` (`server.py` lines 357-366).
`none` models the float `+inf`. -/
def calculate_arrival_time (c : Crossing) : Option ℚ :=
  if c.train_speed ≤ 0 ∨ c.train_distance ≤ 0 then none
  else
    let speed_mps := c.train_speed * (1000 / 3600)
    if speed_mps ≤ 0 then none
    else some (c.train_distance / speed_mps)

/-- `CrossingFSM.calculate_arrival_time` (`src/core/fsm.py` lines 188-198).
Note: unlike the server-side version it does NOT test `train_distance`. -/
def fsm_calculate_arrival_time (train_speed train_distance : ℚ) : Option ℚ :=
  if train_speed ≤ 0 then none
  else
    let speed_mps := train_speed * (1000 / 3600)
    if speed_mps ≤ 0 then none
    else some (train_distance / speed_mps)

/-- The comparison `crossing.calculate_arrival_time() > 5` used by
`_can_advance_state`; the float `+inf` compares greater than 5. -/
def arrivalGT5 (c : Crossing) : Bool :=
  match calculate_arrival_time c with
  | none => true
  | some t => decide (5 < t)

/-- `RailwaySystem._can_advance_state` (`server.py` lines 1123-1134). -/
def can_advance_state (c : Crossing) : Bool :=
  if c.state = .EMERGENCY ∨ c.state = .MAINTENANCE then false
  else if c.state = .COUNTDOWN ∧ 0 < c.countdown then false
  else if c.state = .WARNING ∧ arrivalGT5 c then false
  else true

/-- The train-position update of one background tick
(`server.py` lines 1148-1154). -/
def advancePosition (c : Crossing) : Crossing :=
  if (c.state = .WARNING ∨ c.state = .COUNTDOWN ∨ c.state = .BARRIER_DOWN ∨
      c.state = .TRAIN_PASSING) ∧ c.train_position < 100 then
    let speed_factor := c.train_speed / 100
    let increment := max 2 (min 10 (5 * speed_factor))
    { c with train_position := min 100 (c.train_position + increment) }
  else c

/-- The countdown recomputation of the background tick (`server.py` line
1164): `max(0, get_adjusted_time(10) - int(time_in_state))`. -/
def recomputedCountdown (c : Crossing) (now : ℚ) : Int :=
  max 0 (get_adjusted_time c 10 - pyTrunc (now - c.last_state_change))

/-- The body of the COUNTDOWN branch of the background tick
(`server.py` lines 1162-1169): store the recomputed countdown, then advance
to BARRIER_DOWN when it reached 0 and the guard allows. -/
def countdownTickStep (c : Crossing) (now : ℚ) (o : WearOracle) : Crossing :=
  if recomputedCountdown c now = 0 ∧
      can_advance_state { c with countdown := recomputedCountdown c now } then
    (transition { c with countdown := recomputedCountdown c now } CState.BARRIER_DOWN now o).2
  else { c with countdown := recomputedCountdown c now }

/-- The auto-advance branches of one background tick for one crossing
(`server.py` lines 1156-1180).  `now - c.last_state_change` models
`(datetime.now() - crossing.last_state_change).total_seconds()`. -/
def autoAdvance (c : Crossing) (now : ℚ) (o : WearOracle) : Crossing :=
  if c.state = CState.WARNING then
    if 3 ≤ now - c.last_state_change ∧ can_advance_state c then
      (transition c CState.COUNTDOWN now o).2
    else c
  else if c.state = CState.COUNTDOWN ∧ 0 < c.countdown then
    countdownTickStep c now o
  else if c.state = CState.BARRIER_DOWN then
    if 2 ≤ now - c.last_state_change ∧ can_advance_state c then
      (transition c CState.TRAIN_PASSING now o).2
    else c
  else if c.state = CState.TRAIN_PASSING ∧ 100 ≤ c.train_position then
    if 3 ≤ now - c.last_state_change ∧ can_advance_state c then
      { (transition c CState.IDLE now o).2 with train_position := -100 }
    else c
  else c

/-- One background-task iteration restricted to a single crossing:
position update then auto-advance (`server.py` lines 1148-1180). -/
def tickCrossing (c : Crossing) (now : ℚ) (o : WearOracle) : Crossing :=
  autoAdvance (advancePosition c) now o

/-- Map with the element index, used for the per-crossing loops of the
background task and of the emergency broadcast. -/
def mapWithIdx (f : Nat → Crossing → Crossing) : Nat → List Crossing → List Crossing
  | _, [] => []
  | i, c :: rest => f i c :: mapWithIdx f (i + 1) rest

/-- The statistics counters touched by `process_command`
(`server.py` lines 917-927; derived fields omitted). -/
structure Statistics where
  total_operations : Nat
  successful_transitions : Nat
  failed_transitions : Nat
deriving DecidableEq, Repr

/-- The `global_state` fields read or written by the modelled operations
(`server.py` lines 906-916). -/
structure GlobalState where
  emergency : Bool
  maintenance : Bool
  weather : String
  uptime : Nat
  system_health : ℚ
  total_trains : Nat
deriving DecidableEq, Repr

/-- `RailwaySystem` state (`server.py` lines 899-937). -/
structure RailwaySystem where
  crossings : List Crossing
  global_state : GlobalState
  statistics : Statistics
deriving DecidableEq, Repr

/-- `RailwaySystem.__init__`: four fresh crossings. -/
def initSystem : RailwaySystem where
  crossings := [initCrossing, initCrossing, initCrossing, initCrossing]
  global_state := ⟨false, false, "CLEAR", 0, 100, 0⟩
  statistics := ⟨0, 0, 0⟩

/-- One full background-task iteration (`server.py` lines 1144-1186):
uptime, per-crossing tick, then the aggregate system-health formula. -/
def tickSystem (sys : RailwaySystem) (now : ℚ) (o : Nat → WearOracle) : RailwaySystem :=
  let crossings1 := mapWithIdx (fun j c => tickCrossing c now (o j)) 0 sys.crossings
  let total_faults : Nat := (crossings1.map (fun c => c.faults.length)).sum
  let bad_sensors : Nat :=
    (crossings1.map (fun c => (c.sensor_health.filter (fun p => !p.2)).length)).sum
  { sys with
    crossings := crossings1,
    global_state := { sys.global_state with
      uptime := sys.global_state.uptime + 1,
      system_health := max 0 (100 - ((total_faults : ℚ) * 5 + (bad_sensors : ℚ) * 3)) } }

/-- The `params` dict as read by `process_command`: the four keys the code
looks up, plus `others`, the number of further keys (which matter only for
the dict's truthiness in `if params:`). -/
structure Params where
  train_speed : Option ℚ
  train_distance : Option ℚ
  weather : Option String
  fault_type : Option String
  others : Nat
deriving DecidableEq, Repr

/-- Python truthiness of the `params` dict: non-empty. -/
def Params.isTruthy (p : Params) : Bool :=
  p.train_speed.isSome || p.train_distance.isSome || p.weather.isSome ||
    p.fault_type.isSome || decide (p.others ≠ 0)

/-- `WeatherCondition[name]` lookup on an already upper-cased name. -/
def weatherOfUpper (s : String) : Option Weather :=
  if s = "CLEAR" then some .CLEAR
  else if s = "RAIN" then some .RAIN
  else if s = "FOG" then some .FOG
  else if s = "STORM" then some .STORM
  else none

/-- Python `str.upper()` (ASCII), character by character. -/
def pyUpper (s : String) : String :=
  String.mk (s.data.map Char.toUpper)

/-- `WeatherCondition[params['weather'].upper()]`. -/
def parseWeather (s : String) : Option Weather :=
  weatherOfUpper (pyUpper s)

/-- Python dict assignment `d[k] = v` on an association list: replace in
place, appending if the key is absent. -/
def dictSet : List (String × Bool) → String → Bool → List (String × Bool)
  | [], k, v => [(k, v)]
  | (k', v') :: rest, k, v =>
      if k' = k then (k, v) :: rest else (k', v') :: dictSet rest k v

/-- Python dict lookup `d.get(k)` on an association list. -/
def dictGet : List (String × Bool) → String → Option Bool
  | [], _ => none
  | (k', v') :: rest, k => if k' = k then some v' else dictGet rest k

/-- Result dict of `process_command`: either the normal
`{success, new_state, state_description, next_action}` shape (the last two
are fixed functions of `new_state`) or an `{success: False, error}` shape. -/
inductive CmdResult where
  | ok (success : Bool) (new_state : CState)
  | err (msg : String)
deriving DecidableEq, Repr

/-- `self.state_descriptions` table (`server.py` lines 204-212). -/
def get_state_description : CState → String
  | .IDLE => "Crossing is clear and ready"
  | .WARNING => "Train detected - warning activated"
  | .COUNTDOWN => "Countdown to barrier closure"
  | .BARRIER_DOWN => "Barriers lowered - road closed"
  | .TRAIN_PASSING => "Train is passing through"
  | .EMERGENCY => "EMERGENCY - Manual intervention required"
  | .MAINTENANCE => "Maintenance in progress"

/-- `self.next_actions` table (`server.py` lines 215-223). -/
def get_next_action : CState → String
  | .IDLE => "Train detection"
  | .WARNING => "Start countdown"
  | .COUNTDOWN => "Lower barriers"
  | .BARRIER_DOWN => "Train passage"
  | .TRAIN_PASSING => "Raise barriers"
  | .EMERGENCY => "Manual reset"
  | .MAINTENANCE => "Complete maintenance"

def setCrossing (sys : RailwaySystem) (i : Nat) (c : Crossing) : RailwaySystem :=
  { sys with crossings := sys.crossings.set i c }

/-- The parameter-setting prelude of the `approach` branch
(`server.py` lines 1006-1015).  Returns the updated crossing and, when the
weather string parsed, the weather to store into `global_state`. -/
def approachSetParams (c : Crossing) (params : Option Params) : Crossing × Option Weather :=
  match params with
  | none => (c, none)
  | some p =>
    if p.isTruthy then
      let c1 := { c with train_speed := p.train_speed.getD 60,
                         train_distance := p.train_distance.getD 200 }
      match p.weather with
      | none => (c1, none)
      | some ws =>
        match parseWeather ws with
        | some w => ({ c1 with weather := w }, some w)
        | none => ({ c1 with weather := .CLEAR }, none)
    else (c, none)

/-- `params.get('fault_type', 'sensor_ir') if params else 'sensor_ir'`. -/
def faultTypeOf (params : Option Params) : String :=
  match params with
  | none => "sensor_ir"
  | some p => if p.isTruthy then p.fault_type.getD "sensor_ir" else "sensor_ir"

/-- The `inject_fault` branch body (`server.py` lines 1060-1068). -/
def injectFault (c : Crossing) (fault_type : String) : Crossing :=
  if fault_type = "sensor_ir" then
    { c with sensor_health := dictSet c.sensor_health "ir" false,
             faults := c.faults ++ ["IR_SENSOR_FAULT"] }
  else if fault_type = "sensor_vib" then
    { c with sensor_health := dictSet c.sensor_health "vibration" false,
             faults := c.faults ++ ["VIBRATION_SENSOR_FAULT"] }
  else if fault_type = "barrier_stuck" then
    { c with faults := c.faults ++ ["BARRIER_STUCK"] }
  else c

/-- The crossing stored back by the `approach` branch: parameters applied,
transition to WARNING attempted, `train_position = 0` on success
(`server.py` lines 1005-1019). -/
def approachResultCrossing (c : Crossing) (params : Option Params) (now : ℚ)
    (w : WearOracle) : Crossing :=
  if (transition (approachSetParams c params).1 CState.WARNING now w).1 then
    { (transition (approachSetParams c params).1 CState.WARNING now w).2 with
      train_position := 0 }
  else (transition (approachSetParams c params).1 CState.WARNING now w).2

/-- `self.global_state['weather'] = crossing.weather.value`, performed only
when the supplied weather string parsed (`server.py` line 1012). -/
def applyGlobalWeather (sys : RailwaySystem) : Option Weather → RailwaySystem
  | some w => { sys with global_state := { sys.global_state with weather := weatherName w } }
  | none => sys

/-- The `approach` branch of `process_command` (`server.py` lines 1005-1019). -/
def cmdApproach (sys : RailwaySystem) (i : Nat) (params : Option Params) (now : ℚ)
    (w : WearOracle) : Bool × RailwaySystem :=
  ((transition (approachSetParams (sys.crossings.getD i initCrossing) params).1
      CState.WARNING now w).1,
   applyGlobalWeather
     (setCrossing sys i
       (approachResultCrossing (sys.crossings.getD i initCrossing) params now w))
     (approachSetParams (sys.crossings.getD i initCrossing) params).2)

/-- The `countdown` / `barrier_down` branches: a bare transition
(`server.py` lines 1021-1025). -/
def cmdSimple (sys : RailwaySystem) (i : Nat) (t : CState) (now : ℚ)
    (w : WearOracle) : Bool × RailwaySystem :=
  ((transition (sys.crossings.getD i initCrossing) t now w).1,
   setCrossing sys i (transition (sys.crossings.getD i initCrossing) t now w).2)

/-- The `train_pass` branch (`server.py` lines 1027-1031). -/
def cmdTrainPass (sys : RailwaySystem) (i : Nat) (now : ℚ) (w : WearOracle) :
    Bool × RailwaySystem :=
  if (transition (sys.crossings.getD i initCrossing) CState.TRAIN_PASSING now w).1 then
    (true,
     { setCrossing sys i
         { (transition (sys.crossings.getD i initCrossing) CState.TRAIN_PASSING now w).2 with
           train_position := 100 } with
       global_state := { sys.global_state with
         total_trains := sys.global_state.total_trains + 1 } })
  else
    (false, setCrossing sys i
      (transition (sys.crossings.getD i initCrossing) CState.TRAIN_PASSING now w).2)

/-- The `reset` branch (`server.py` lines 1033-1038). -/
def cmdReset (sys : RailwaySystem) (i : Nat) (now : ℚ) (w : WearOracle) :
    Bool × RailwaySystem :=
  if (transition (sys.crossings.getD i initCrossing) CState.IDLE now w).1 then
    (true, setCrossing sys i
      { (transition (sys.crossings.getD i initCrossing) CState.IDLE now w).2 with
        train_position := -100, train_speed := 0, train_distance := 0 })
  else
    (false, setCrossing sys i
      (transition (sys.crossings.getD i initCrossing) CState.IDLE now w).2)

/-- The `emergency` branch (`server.py` lines 1040-1052): toggle the flag,
then attempt the corresponding transition on every crossing; the command
itself always reports success. -/
def cmdEmergency (sys : RailwaySystem) (now : ℚ) (o : Nat → WearOracle) :
    Bool × RailwaySystem :=
  (true,
   { sys with
     crossings := mapWithIdx
       (fun j cj => (transition cj
         (if !sys.global_state.emergency then CState.EMERGENCY else CState.IDLE)
         now (o j)).2) 0 sys.crossings,
     global_state := { sys.global_state with emergency := !sys.global_state.emergency } })

/-- The `maintenance` branch (`server.py` lines 1054-1057). -/
def cmdMaintenance (sys : RailwaySystem) (i : Nat) (now : ℚ) (w : WearOracle) :
    Bool × RailwaySystem :=
  if (transition (sys.crossings.getD i initCrossing) CState.MAINTENANCE now w).1 then
    (true,
     { setCrossing sys i
         (transition (sys.crossings.getD i initCrossing) CState.MAINTENANCE now w).2 with
       global_state := { sys.global_state with maintenance := true } })
  else
    (false, setCrossing sys i
      (transition (sys.crossings.getD i initCrossing) CState.MAINTENANCE now w).2)

/-- The `inject_fault` branch (`server.py` lines 1059-1071). -/
def cmdInjectFault (sys : RailwaySystem) (i : Nat) (params : Option Params) :
    Bool × RailwaySystem :=
  (true, setCrossing sys i
    (injectFault (sys.crossings.getD i initCrossing) (faultTypeOf params)))

/-- The `clear_faults` branch (`server.py` lines 1073-1077): note the
replacement `sensor_health` dict has no `ultrasonic` key. -/
def cmdClearFaults (sys : RailwaySystem) (i : Nat) : Bool × RailwaySystem :=
  (true, setCrossing sys i
    { sys.crossings.getD i initCrossing with
      sensor_health := [("ir", true), ("vibration", true), ("rfid", true)],
      faults := [] })

/-- The command dispatch of `process_command` (`server.py` lines 1005-1080)
for a valid crossing index `i`; `none` is the unknown-command early return.
`o j` supplies the wear-oracle draws for crossing `j` (the emergency branch
transitions every crossing). -/
def runCommand (sys : RailwaySystem) (i : Nat) (command : String)
    (params : Option Params) (now : ℚ) (o : Nat → WearOracle) :
    Option (Bool × RailwaySystem) :=
  match command with
  | "approach" => some (cmdApproach sys i params now (o i))
  | "countdown" => some (cmdSimple sys i CState.COUNTDOWN now (o i))
  | "barrier_down" => some (cmdSimple sys i CState.BARRIER_DOWN now (o i))
  | "train_pass" => some (cmdTrainPass sys i now (o i))
  | "reset" => some (cmdReset sys i now (o i))
  | "emergency" => some (cmdEmergency sys now o)
  | "maintenance" => some (cmdMaintenance sys i now (o i))
  | "inject_fault" => some (cmdInjectFault sys i params)
  | "clear_faults" => some (cmdClearFaults sys i)
  | _ => none

/-- The statistics update of `process_command` (`server.py` lines 1083-1089). -/
def bumpStats (st : Statistics) (success : Bool) : Statistics :=
  let st1 :=
    if success then { st with successful_transitions := st.successful_transitions + 1 }
    else { st with failed_transitions := st.failed_transitions + 1 }
  { st1 with total_operations := st1.total_operations + 1 }

/-- `RailwaySystem.process_command` (`server.py` lines 993-1101). -/
def process_command (sys : RailwaySystem) (crossing_id : Int) (command : String)
    (params : Option Params) (now : ℚ) (o : Nat → WearOracle) :
    CmdResult × RailwaySystem :=
  if crossing_id < 0 ∨ (sys.crossings.length : Int) ≤ crossing_id then
    (.err ("Invalid crossing ID: " ++ toString crossing_id), sys)
  else
    match runCommand sys crossing_id.toNat command params now o with
    | none => (.err ("Unknown command: " ++ command), sys)
    | some (success, sys1) =>
      ((.ok success (sys1.crossings.getD crossing_id.toNat initCrossing).state),
       { sys1 with statistics := bumpStats sys1.statistics success })

/-- A wear-oracle draw where `random.random() < 0.1` did not fire. -/
def wOracle : WearOracle := ⟨false, Component.sensors, 1⟩

/-- The same draw for every crossing of the system. -/
def wOracleN : Nat → WearOracle := fun _ => wOracle

/-- A wear-oracle draw that degrades the barrier motor by 2. -/
def degradeOracle : WearOracle := ⟨true, Component.barrier_motor, 2⟩

/-- A crossing in WARNING under STORM weather (reachable via `approach`
with `weather='storm'`). -/
def stormCrossing : Crossing :=
  { initCrossing with state := CState.WARNING, weather := Weather.STORM }

/-- A crossing inside its COUNTDOWN phase. -/
def countdownCrossing : Crossing :=
  { initCrossing with state := CState.COUNTDOWN, countdown := 10 }

/-- Safety invariant of claim C2: the barrier is DOWN only in the two
train-occupying states. -/
def BarrierInv (c : Crossing) : Prop :=
  c.barrier = "DOWN" → c.state = CState.BARRIER_DOWN ∨ c.state = CState.TRAIN_PASSING

/-- Invariant of claim C8: every component's health is at least 50. -/
def HealthInv (c : Crossing) : Prop :=
  ∀ k, 50 ≤ healthOf c.component_health k

/-- The nine command names `process_command` recognizes
(`server.py` lines 1005-1077). -/
def knownCommands : List String :=
  ["approach", "countdown", "barrier_down", "train_pass", "reset", "emergency",
   "maintenance", "inject_fault", "clear_faults"]

end Railway

namespace Railway

/-! ### Derived facts about the embedding -/

@[simp] theorem applyWear_state (c : Crossing) (o : WearOracle) :
    (applyWear c o).state = c.state := by
  unfold applyWear; split <;> rfl

@[simp] theorem applyWear_barrier (c : Crossing) (o : WearOracle) :
    (applyWear c o).barrier = c.barrier := by
  unfold applyWear; split <;> rfl

@[simp] theorem applyWear_countdown (c : Crossing) (o : WearOracle) :
    (applyWear c o).countdown = c.countdown := by
  unfold applyWear; split <;> rfl

@[simp] theorem applyWear_train_speed (c : Crossing) (o : WearOracle) :
    (applyWear c o).train_speed = c.train_speed := by
  unfold applyWear; split <;> rfl

@[simp] theorem applyWear_train_distance (c : Crossing) (o : WearOracle) :
    (applyWear c o).train_distance = c.train_distance := by
  unfold applyWear; split <;> rfl

@[simp] theorem applyWear_weather (c : Crossing) (o : WearOracle) :
    (applyWear c o).weather = c.weather := by
  unfold applyWear; split <;> rfl

@[simp] theorem applyWear_train_position (c : Crossing) (o : WearOracle) :
    (applyWear c o).train_position = c.train_position := by
  unfold applyWear; split <;> rfl

@[simp] theorem applyWear_sensor_health (c : Crossing) (o : WearOracle) :
    (applyWear c o).sensor_health = c.sensor_health := by
  unfold applyWear; split <;> rfl

@[simp] theorem applyWear_faults (c : Crossing) (o : WearOracle) :
    (applyWear c o).faults = c.faults := by
  unfold applyWear; split <;> rfl

@[simp] theorem update_outputs_state (c : Crossing) :
    (update_outputs c).state = c.state := by
  unfold update_outputs; cases c.state <;> rfl

@[simp] theorem update_outputs_train_speed (c : Crossing) :
    (update_outputs c).train_speed = c.train_speed := by
  unfold update_outputs; cases c.state <;> rfl

@[simp] theorem update_outputs_train_distance (c : Crossing) :
    (update_outputs c).train_distance = c.train_distance := by
  unfold update_outputs; cases c.state <;> rfl

@[simp] theorem update_outputs_weather (c : Crossing) :
    (update_outputs c).weather = c.weather := by
  unfold update_outputs; cases c.state <;> rfl

@[simp] theorem update_outputs_component_health (c : Crossing) :
    (update_outputs c).component_health = c.component_health := by
  unfold update_outputs; cases c.state <;> rfl

@[simp] theorem update_outputs_sensor_health (c : Crossing) :
    (update_outputs c).sensor_health = c.sensor_health := by
  unfold update_outputs; cases c.state <;> rfl

@[simp] theorem update_outputs_faults (c : Crossing) :
    (update_outputs c).faults = c.faults := by
  unfold update_outputs; cases c.state <;> rfl

theorem transition_not_mem (c : Crossing) (t : CState) (now : ℚ) (o : WearOracle)
    (h : t ∉ allowedTargets c.state) : transition c t now o = (false, c) := by
  unfold transition; rw [if_neg h]

theorem transition_fst_iff (c : Crossing) (t : CState) (now : ℚ) (o : WearOracle) :
    (transition c t now o).1 = true ↔ t ∈ allowedTargets c.state := by
  unfold transition; split <;> simp_all

theorem transition_mem_state (c : Crossing) (t : CState) (now : ℚ) (o : WearOracle)
    (h : t ∈ allowedTargets c.state) : (transition c t now o).2.state = t := by
  unfold transition; rw [if_pos h]; simp

theorem transition_train_speed (c : Crossing) (t : CState) (now : ℚ) (o : WearOracle) :
    (transition c t now o).2.train_speed = c.train_speed := by
  unfold transition; split <;> simp <;> split <;> rfl

theorem transition_train_distance (c : Crossing) (t : CState) (now : ℚ) (o : WearOracle) :
    (transition c t now o).2.train_distance = c.train_distance := by
  unfold transition; split <;> simp <;> split <;> rfl

theorem transition_weather (c : Crossing) (t : CState) (now : ℚ) (o : WearOracle) :
    (transition c t now o).2.weather = c.weather := by
  unfold transition; split <;> simp <;> split <;> rfl


theorem transition_mem_barrier (c : Crossing) (t : CState) (now : ℚ) (o : WearOracle)
    (h : t ∈ allowedTargets c.state) :
    (transition c t now o).2.barrier =
      (if t = .BARRIER_DOWN ∨ t = .TRAIN_PASSING then "DOWN" else "UP") := by
  unfold transition
  rw [if_pos h]
  cases t <;> simp [update_outputs]

theorem transition_countdown_enter (c : Crossing) (now : ℚ) (o : WearOracle)
    (h : CState.COUNTDOWN ∈ allowedTargets c.state) :
    (transition c .COUNTDOWN now o).2.countdown = get_adjusted_time c 10 := by
  unfold transition
  rw [if_pos h]
  simp [update_outputs, get_adjusted_time]

@[simp] theorem applyWear_component_health (c : Crossing) (o : WearOracle) :
    (applyWear c o).component_health =
      if o.degrade then
        setHealth c.component_health o.comp
          (max 50 (healthOf c.component_health o.comp - o.amount))
      else c.component_health := by
  unfold applyWear; split <;> simp_all

theorem transition_component_health (c : Crossing) (t : CState) (now : ℚ) (o : WearOracle) :
    (transition c t now o).2.component_health =
      if t ∈ allowedTargets c.state ∧ o.degrade = true then
        setHealth c.component_health o.comp
          (max 50 (healthOf c.component_health o.comp - o.amount))
      else c.component_health := by
  by_cases hmem : t ∈ allowedTargets c.state <;> by_cases hdeg : o.degrade = true <;>
    simp [transition, hmem, hdeg, apply_ite]


/-! ### Claim C1 -/

/-- Claim C1: for every crossing and every (current, target) state pair,
`transition(target)` returns success exactly when the target lies in the fixed
7-state table for the current state; on failure the crossing — its state,
countdown and state_history included — is exactly as before the call. -/
theorem claim_C1 (c : Crossing) (target : CState) (now : ℚ) (o : WearOracle) :
    ((transition c target now o).1 = true ↔
      target ∈ (match c.state with
        | CState.IDLE => [CState.WARNING, CState.EMERGENCY, CState.MAINTENANCE]
        | CState.WARNING => [CState.COUNTDOWN, CState.IDLE, CState.EMERGENCY]
        | CState.COUNTDOWN => [CState.BARRIER_DOWN, CState.EMERGENCY]
        | CState.BARRIER_DOWN => [CState.TRAIN_PASSING, CState.EMERGENCY]
        | CState.TRAIN_PASSING => [CState.IDLE, CState.EMERGENCY]
        | CState.EMERGENCY => [CState.IDLE]
        | CState.MAINTENANCE => [CState.IDLE]))
    ∧ ((transition c target now o).1 = false →
        (transition c target now o).2 = c) := by
  have htab : (match c.state with
        | CState.IDLE => [CState.WARNING, CState.EMERGENCY, CState.MAINTENANCE]
        | CState.WARNING => [CState.COUNTDOWN, CState.IDLE, CState.EMERGENCY]
        | CState.COUNTDOWN => [CState.BARRIER_DOWN, CState.EMERGENCY]
        | CState.BARRIER_DOWN => [CState.TRAIN_PASSING, CState.EMERGENCY]
        | CState.TRAIN_PASSING => [CState.IDLE, CState.EMERGENCY]
        | CState.EMERGENCY => [CState.IDLE]
        | CState.MAINTENANCE => [CState.IDLE]) = allowedTargets c.state := by
    cases c.state <;> rfl
  constructor
  · rw [htab]
    exact transition_fst_iff c target now o
  · intro hf
    have hnm : ¬ target ∈ allowedTargets c.state := by
      intro hm
      rw [(transition_fst_iff c target now o).mpr hm] at hf
      exact Bool.noConfusion hf
    rw [transition_not_mem c target now o hnm]

/-- Witness for C1 at the concrete invalid pair IDLE → COUNTDOWN. -/
theorem claim_C1_witness :
    (transition initCrossing CState.COUNTDOWN 0 wOracle).1 = false
    ∧ (transition initCrossing CState.COUNTDOWN 0 wOracle).2 = initCrossing :=
  ⟨by decide, (claim_C1 initCrossing CState.COUNTDOWN 0 wOracle).2 (by decide)⟩


/-! ### Claim C2 -/

theorem binv_init : BarrierInv initCrossing := by
  intro hb
  exact absurd hb (by decide)

theorem transition_barrier_inv (c : Crossing) (t : CState) (now : ℚ) (o : WearOracle)
    (h : BarrierInv c) : BarrierInv (transition c t now o).2 := by
  by_cases hmem : t ∈ allowedTargets c.state
  · intro hb
    rw [transition_mem_state c t now o hmem]
    rw [transition_mem_barrier c t now o hmem] at hb
    by_cases ht : t = CState.BARRIER_DOWN ∨ t = CState.TRAIN_PASSING
    · exact ht
    · rw [if_neg ht] at hb
      exact absurd hb (by decide)
  · rw [transition_not_mem c t now o hmem]
    exact h

theorem advancePosition_binv (c : Crossing) (h : BarrierInv c) :
    BarrierInv (advancePosition c) := by
  unfold advancePosition
  split
  · exact fun hb => h hb
  · exact h

theorem countdownTickStep_binv (c : Crossing) (now : ℚ) (o : WearOracle)
    (h : BarrierInv c) : BarrierInv (countdownTickStep c now o) := by
  unfold countdownTickStep
  split
  · exact transition_barrier_inv _ _ _ _ (fun hb => h hb)
  · exact fun hb => h hb

theorem autoAdvance_binv (c : Crossing) (now : ℚ) (o : WearOracle) (h : BarrierInv c) :
    BarrierInv (autoAdvance c now o) := by
  unfold autoAdvance
  split
  · split
    · exact transition_barrier_inv _ _ _ _ h
    · exact h
  · split
    · exact countdownTickStep_binv _ _ _ h
    · split
      · split
        · exact transition_barrier_inv _ _ _ _ h
        · exact h
      · split
        · split
          · exact fun hb => transition_barrier_inv _ _ _ _ h hb
          · exact h
        · exact h

theorem tickCrossing_binv (c : Crossing) (now : ℚ) (o : WearOracle) (h : BarrierInv c) :
    BarrierInv (tickCrossing c now o) :=
  autoAdvance_binv _ now o (advancePosition_binv c h)

theorem mapWithIdx_mem (f : Nat → Crossing → Crossing) :
    ∀ (l : List Crossing) (k : Nat) (x : Crossing), x ∈ mapWithIdx f k l →
      ∃ j c, c ∈ l ∧ x = f j c
  | [], _, x, hx => absurd hx (by simp [mapWithIdx])
  | c :: rest, k, x, hx => by
    rcases List.mem_cons.mp hx with h | h
    · exact ⟨k, c, List.mem_cons_self c rest, h⟩
    · obtain ⟨j, c2, hc2, hx2⟩ := mapWithIdx_mem f rest (k + 1) x h
      exact ⟨j, c2, List.mem_cons_of_mem c hc2, hx2⟩

theorem binv_getD (l : List Crossing) (i : Nat) (h : ∀ x ∈ l, BarrierInv x) :
    BarrierInv (l.getD i initCrossing) := by
  induction l generalizing i with
  | nil => exact binv_init
  | cons c rest ih =>
    cases i with
    | zero => exact h c (List.mem_cons_self c rest)
    | succ j => exact ih j (fun x hx => h x (List.mem_cons_of_mem c hx))

theorem binv_set (sys : RailwaySystem) (i : Nat) (c2 : Crossing)
    (h : ∀ x ∈ sys.crossings, BarrierInv x) (hc : BarrierInv c2) :
    ∀ x ∈ (setCrossing sys i c2).crossings, BarrierInv x := by
  intro x hx
  rcases List.mem_or_eq_of_mem_set hx with hm | hm
  · exact h x hm
  · exact hm ▸ hc

theorem approachSetParams_binv (c : Crossing) (params : Option Params)
    (h : BarrierInv c) : BarrierInv (approachSetParams c params).1 := by
  unfold approachSetParams
  rcases params with _ | p
  · exact h
  · dsimp only
    split
    · split
      · exact fun hb => h hb
      · split
        · exact fun hb => h hb
        · exact fun hb => h hb
    · exact h

theorem cmdApproach_binv (sys : RailwaySystem) (i : Nat) (params : Option Params)
    (now : ℚ) (w : WearOracle) (h : ∀ x ∈ sys.crossings, BarrierInv x) :
    ∀ x ∈ (cmdApproach sys i params now w).2.crossings, BarrierInv x := by
  have hc : BarrierInv (sys.crossings.getD i initCrossing) := binv_getD _ _ h
  have hc2 : BarrierInv (approachResultCrossing (sys.crossings.getD i initCrossing) params now w) := by
    unfold approachResultCrossing
    split
    · exact fun hb => transition_barrier_inv _ _ _ _ (approachSetParams_binv _ _ hc) hb
    · exact transition_barrier_inv _ _ _ _ (approachSetParams_binv _ _ hc)
  unfold cmdApproach
  rcases hpr : (approachSetParams (sys.crossings.getD i initCrossing) params).2 with _ | w2 <;>
    simp only [applyGlobalWeather] <;>
    exact binv_set _ _ _ h hc2

theorem runCommand_binv (sys : RailwaySystem) (i : Nat) (cmd : String)
    (params : Option Params) (now : ℚ) (o : Nat → WearOracle)
    (h : ∀ x ∈ sys.crossings, BarrierInv x)
    (r : Bool × RailwaySystem) (hr : runCommand sys i cmd params now o = some r) :
    ∀ x ∈ r.2.crossings, BarrierInv x := by
  have hc : BarrierInv (sys.crossings.getD i initCrossing) := binv_getD _ _ h
  unfold runCommand at hr
  split at hr
  case _ => -- approach
    injection hr with hr
    exact hr ▸ cmdApproach_binv sys i params now (o i) h
  case _ => -- countdown
    injection hr with hr
    exact hr ▸ binv_set _ _ _ h (transition_barrier_inv _ _ _ _ hc)
  case _ => -- barrier_down
    injection hr with hr
    exact hr ▸ binv_set _ _ _ h (transition_barrier_inv _ _ _ _ hc)
  case _ => -- train_pass
    injection hr with hr
    refine hr ▸ ?_
    unfold cmdTrainPass
    split
    · exact binv_set _ _ _ h (fun hb => transition_barrier_inv _ _ _ _ hc hb)
    · exact binv_set _ _ _ h (transition_barrier_inv _ _ _ _ hc)
  case _ => -- reset
    injection hr with hr
    refine hr ▸ ?_
    unfold cmdReset
    split
    · exact binv_set _ _ _ h (fun hb => transition_barrier_inv _ _ _ _ hc hb)
    · exact binv_set _ _ _ h (transition_barrier_inv _ _ _ _ hc)
  case _ => -- emergency
    injection hr with hr
    refine hr ▸ ?_
    intro x hx
    obtain ⟨j, c2, hc2, hx2⟩ := mapWithIdx_mem _ _ _ _ hx
    exact hx2 ▸ transition_barrier_inv _ _ _ _ (h c2 hc2)
  case _ => -- maintenance
    injection hr with hr
    refine hr ▸ ?_
    unfold cmdMaintenance
    split
    · exact binv_set _ _ _ h (transition_barrier_inv _ _ _ _ hc)
    · exact binv_set _ _ _ h (transition_barrier_inv _ _ _ _ hc)
  case _ => -- inject_fault
    injection hr with hr
    refine hr ▸ ?_
    refine binv_set _ _ _ h ?_
    unfold injectFault
    split
    · exact fun hb => hc hb
    · split
      · exact fun hb => hc hb
      · split
        · exact fun hb => hc hb
        · exact hc
  case _ => -- clear_faults
    injection hr with hr
    exact hr ▸ binv_set _ _ _ h (fun hb => hc hb)
  case _ => -- unknown command: contradiction
    exact Option.noConfusion hr

theorem process_command_binv (sys : RailwaySystem) (crossing_id : Int) (cmd : String)
    (params : Option Params) (now : ℚ) (o : Nat → WearOracle)
    (h : ∀ x ∈ sys.crossings, BarrierInv x) :
    ∀ x ∈ (process_command sys crossing_id cmd params now o).2.crossings, BarrierInv x := by
  unfold process_command
  split
  · exact h
  · rcases hr : runCommand sys crossing_id.toNat cmd params now o with _ | ⟨success, sys1⟩
    · simp only [hr]
      exact h
    · simp only [hr]
      exact runCommand_binv _ _ _ _ _ _ h (success, sys1) hr

/-- Claim C2: the invariant "barrier is DOWN only in BARRIER_DOWN or
TRAIN_PASSING" holds initially and is preserved by every successful (indeed
every) transition, every scheduler tick (per crossing and for the whole
system), and every command; and a successful transition into EMERGENCY, IDLE,
WARNING, COUNTDOWN or MAINTENANCE sets the barrier to UP. -/
theorem claim_C2 :
    BarrierInv initCrossing
    ∧ (∀ c t now o, BarrierInv c → BarrierInv (transition c t now o).2)
    ∧ (∀ c now o, BarrierInv c → BarrierInv (tickCrossing c now o))
    ∧ (∀ sys now o, (∀ x ∈ sys.crossings, BarrierInv x) →
        ∀ x ∈ (tickSystem sys now o).crossings, BarrierInv x)
    ∧ (∀ sys crossing_id cmd params now o, (∀ x ∈ sys.crossings, BarrierInv x) →
        ∀ x ∈ (process_command sys crossing_id cmd params now o).2.crossings, BarrierInv x)
    ∧ (∀ c t now o, (transition c t now o).1 = true →
        (t = CState.EMERGENCY ∨ t = CState.IDLE ∨ t = CState.WARNING ∨
          t = CState.COUNTDOWN ∨ t = CState.MAINTENANCE) →
        (transition c t now o).2.barrier = "UP") := by
  refine ⟨binv_init, transition_barrier_inv, tickCrossing_binv, ?_, process_command_binv, ?_⟩
  · intro sys now o h x hx
    obtain ⟨j, c2, hc2, hx2⟩ := mapWithIdx_mem _ _ _ _ hx
    exact hx2 ▸ tickCrossing_binv _ _ _ (h c2 hc2)
  · intro c t now o hs ht
    have hmem : t ∈ allowedTargets c.state := (transition_fst_iff c t now o).mp hs
    rw [transition_mem_barrier c t now o hmem]
    rw [if_neg ?_]
    rcases ht with h | h | h | h | h <;> subst h <;> rintro (h2 | h2) <;> exact CState.noConfusion h2

/-- Witness for C2: a successful IDLE → WARNING transition leaves the barrier UP. -/
theorem claim_C2_witness :
    (transition initCrossing CState.WARNING 0 wOracle).2.barrier = "UP" :=
  claim_C2.2.2.2.2.2 initCrossing CState.WARNING 0 wOracle (by decide) (by tauto)


/-! ### Claim C4 -/

@[simp] theorem advancePosition_state (c : Crossing) :
    (advancePosition c).state = c.state := by
  unfold advancePosition; split <;> rfl

@[simp] theorem advancePosition_countdown (c : Crossing) :
    (advancePosition c).countdown = c.countdown := by
  unfold advancePosition; split <;> rfl

@[simp] theorem advancePosition_weather (c : Crossing) :
    (advancePosition c).weather = c.weather := by
  unfold advancePosition; split <;> rfl

@[simp] theorem advancePosition_last_state_change (c : Crossing) :
    (advancePosition c).last_state_change = c.last_state_change := by
  unfold advancePosition; split <;> rfl

theorem recomputed_congr (a c : Crossing) (t : ℚ) (hw : a.weather = c.weather)
    (hl : a.last_state_change = c.last_state_change) :
    recomputedCountdown a t = recomputedCountdown c t := by
  unfold recomputedCountdown get_adjusted_time
  rw [hw, hl]

@[simp] theorem recomputed_advancePosition (c : Crossing) (t : ℚ) :
    recomputedCountdown (advancePosition c) t = recomputedCountdown c t :=
  recomputed_congr _ _ _ (advancePosition_weather c) (advancePosition_last_state_change c)

theorem can_advance_countdown_zero (c : Crossing) (hs : c.state = CState.COUNTDOWN)
    (hc : c.countdown = 0) : can_advance_state c = true := by
  unfold can_advance_state
  rw [if_neg (by simp [hs]), if_neg (by simp [hc]), if_neg (by simp [hs])]

theorem tick_countdown_form (c : Crossing) (now : ℚ) (o : WearOracle)
    (hs : c.state = CState.COUNTDOWN) (hc : 0 < c.countdown) :
    tickCrossing c now o = countdownTickStep (advancePosition c) now o := by
  have h1 : ¬ ((advancePosition c).state = CState.WARNING) := by simp [hs]
  have h2 : (advancePosition c).state = CState.COUNTDOWN ∧ 0 < (advancePosition c).countdown := by
    simp [hs, hc]
  unfold tickCrossing autoAdvance
  rw [if_neg h1, if_pos h2]

theorem countdownTickStep_pos (c : Crossing) (now : ℚ) (o : WearOracle)
    (hpos : 0 < recomputedCountdown c now) :
    countdownTickStep c now o = { c with countdown := recomputedCountdown c now } := by
  unfold countdownTickStep
  rw [if_neg (fun hz => absurd hz.1 (by omega))]

theorem countdownTickStep_zero (c : Crossing) (now : ℚ) (o : WearOracle)
    (hs : c.state = CState.COUNTDOWN) (hz : recomputedCountdown c now = 0) :
    (countdownTickStep c now o).state = CState.BARRIER_DOWN := by
  unfold countdownTickStep
  rw [if_pos ⟨hz, can_advance_countdown_zero _ (by simp [hs]) (by simp [hz])⟩]
  exact transition_mem_state _ _ _ _ (by rw [hs]; exact List.mem_cons_self _ _)

theorem tick_stays_countdown (c : Crossing) (now : ℚ) (o : WearOracle)
    (hs : c.state = CState.COUNTDOWN) (hc : 0 < c.countdown)
    (hpos : 0 < recomputedCountdown c now) :
    (tickCrossing c now o).state = CState.COUNTDOWN
    ∧ (tickCrossing c now o).countdown = recomputedCountdown c now
    ∧ (tickCrossing c now o).weather = c.weather
    ∧ (tickCrossing c now o).last_state_change = c.last_state_change := by
  rw [tick_countdown_form c now o hs hc,
    countdownTickStep_pos _ _ _ (by simpa using hpos)]
  refine ⟨by simp [hs], by simp, by simp, by simp⟩

theorem fold_stays_countdown (c : Crossing) (o : WearOracle) :
    ∀ (ts : List ℚ) (a : Crossing), a.state = CState.COUNTDOWN → 0 < a.countdown →
      a.weather = c.weather → a.last_state_change = c.last_state_change →
      (∀ t ∈ ts, 0 < recomputedCountdown c t) →
      (ts.foldl (fun b t => tickCrossing b t o) a).state = CState.COUNTDOWN
  | [], a, h1, _, _, _, _ => h1
  | t :: ts, a, h1, h2, h3, h4, hall => by
    have hpos : 0 < recomputedCountdown a t := by
      rw [recomputed_congr a c t h3 h4]
      exact hall t (List.mem_cons_self _ _)
    obtain ⟨s1, s2, s3, s4⟩ := tick_stays_countdown a t o h1 h2 hpos
    have h2a : 0 < (tickCrossing a t o).countdown := by
      rw [s2]
      rw [recomputed_congr a c t h3 h4]
      exact hall t (List.mem_cons_self _ _)
    exact fold_stays_countdown c o ts (tickCrossing a t o) s1 h2a (s3.trans h3)
      (s4.trans h4) (fun u hu => hall u (List.mem_cons_of_mem _ hu))

/-- Claim C4: a crossing in COUNTDOWN with countdown > 0 is auto-advanced to
BARRIER_DOWN by a background tick exactly when the recomputed countdown
(`max(0, adjusted_10 - int(dwell))`) is 0; while it stays positive the
crossing remains in COUNTDOWN with that recomputed value, over arbitrarily
many ticks. -/
theorem claim_C4 (c : Crossing) (now : ℚ) (o : WearOracle)
    (hs : c.state = CState.COUNTDOWN) (hc : 0 < c.countdown) :
    ((tickCrossing c now o).state = CState.BARRIER_DOWN ↔ recomputedCountdown c now = 0)
    ∧ (0 < recomputedCountdown c now →
        (tickCrossing c now o).state = CState.COUNTDOWN
        ∧ (tickCrossing c now o).countdown = recomputedCountdown c now)
    ∧ (∀ (ts : List ℚ), (∀ t ∈ ts, 0 < recomputedCountdown c t) →
        (ts.foldl (fun b t => tickCrossing b t o) c).state = CState.COUNTDOWN) := by
  have hform := tick_countdown_form c now o hs hc
  have hcases : recomputedCountdown c now = 0 ∨ 0 < recomputedCountdown c now := by
    have : 0 ≤ recomputedCountdown c now := le_max_left 0 _
    omega
  refine ⟨?_, ?_, ?_⟩
  · constructor
    · intro hbd
      rcases hcases with hz | hpos
      · exact hz
      · exfalso
        rw [hform, countdownTickStep_pos _ _ _ (by simpa using hpos)] at hbd
        simp [hs] at hbd
    · intro hz
      rw [hform]
      exact countdownTickStep_zero _ _ _ (by simp [hs]) (by simpa using hz)
  · intro hpos
    exact ⟨(tick_stays_countdown c now o hs hc hpos).1,
      (tick_stays_countdown c now o hs hc hpos).2.1⟩
  · intro ts hall
    exact fold_stays_countdown c o ts c hs hc rfl rfl hall

/-- Witness for C4: at dwell 4 s under CLEAR weather the recomputed countdown
is 6, and the tick leaves the crossing in COUNTDOWN with countdown 6. -/
theorem claim_C4_witness :
    0 < recomputedCountdown countdownCrossing 4
    ∧ (tickCrossing countdownCrossing 4 wOracle).state = CState.COUNTDOWN
    ∧ (tickCrossing countdownCrossing 4 wOracle).countdown =
        recomputedCountdown countdownCrossing 4 := by
  have hpos : 0 < recomputedCountdown countdownCrossing 4 := by
    with_unfolding_all decide
  exact ⟨hpos, (claim_C4 countdownCrossing 4 wOracle (by decide) (by decide)).2.1 hpos⟩

/-! ### Claim C5 -/

/-- Claim C5: a successful transition into COUNTDOWN sets the countdown to
`round(10 * weather_multiplier)` — 18 under STORM, 10 under CLEAR.  (The code
truncates with `int()`, which agrees with `round` because every product
`10 * multiplier` is an integer.) -/
theorem claim_C5 (c : Crossing) (now : ℚ) (o : WearOracle)
    (h : (transition c CState.COUNTDOWN now o).1 = true) :
    (transition c CState.COUNTDOWN now o).2.countdown =
      round ((10 : ℚ) * weatherMultiplier c.weather)
    ∧ (c.weather = Weather.STORM →
        (transition c CState.COUNTDOWN now o).2.countdown = 18)
    ∧ (c.weather = Weather.CLEAR →
        (transition c CState.COUNTDOWN now o).2.countdown = 10) := by
  have hmem := (transition_fst_iff c _ now o).mp h
  have hcd := transition_countdown_enter c now o hmem
  have hval : get_adjusted_time c 10 = round ((10 : ℚ) * weatherMultiplier c.weather) := by
    unfold get_adjusted_time
    cases c.weather <;> norm_num [weatherMultiplier, pyTrunc, round_eq]
  refine ⟨hcd.trans hval, ?_, ?_⟩
  · intro hw
    rw [hcd, hval, hw]
    norm_num [weatherMultiplier, round_eq]
  · intro hw
    rw [hcd, hval, hw]
    norm_num [weatherMultiplier, round_eq]

/-- Witness for C5: from WARNING under STORM, entering COUNTDOWN yields 18. -/
theorem claim_C5_witness :
    (transition stormCrossing CState.COUNTDOWN 0 wOracle).2.countdown = 18 :=
  (claim_C5 stormCrossing 0 wOracle (by decide)).2.1 rfl


/-! ### Claim C6 -/

/-- Counterexample to C6 as stated: the claim covers both cited
implementations, but `CrossingFSM.calculate_arrival_time` (fsm.py) only
tests the speed — at speed 100 km/h and distance 0 m (distance ≤ 0) it
returns 0.0 rather than +infinity. -/
theorem claim_C6_counterexample :
    (0 : ℚ) ≤ 0
    ∧ fsm_calculate_arrival_time 100 0 = some 0
    ∧ fsm_calculate_arrival_time 100 0 ≠ none := by
  refine ⟨le_refl 0, by norm_num [fsm_calculate_arrival_time], ?_⟩
  rw [show fsm_calculate_arrival_time 100 0 = some 0 by norm_num [fsm_calculate_arrival_time]]
  exact Option.noConfusion

/-- Claim C6, amended: the server-side `RailwayCrossing.calculate_arrival_time`
returns +infinity iff speed ≤ 0 or distance ≤ 0 and otherwise
`distance / (speed * 1000/3600)` (18.0 s at 100 km/h and 500 m); the
`CrossingFSM` variant returns +infinity only when speed ≤ 0, computing the
quotient for every distance. -/
theorem claim_C6_amended (c : Crossing) (s d : ℚ) :
    (calculate_arrival_time c = none ↔ c.train_speed ≤ 0 ∨ c.train_distance ≤ 0)
    ∧ (0 < c.train_speed → 0 < c.train_distance →
        calculate_arrival_time c =
          some (c.train_distance / (c.train_speed * (1000 / 3600))))
    ∧ (c.train_speed = 100 → c.train_distance = 500 →
        calculate_arrival_time c = some 18)
    ∧ (fsm_calculate_arrival_time s d = none ↔ s ≤ 0)
    ∧ (0 < s → fsm_calculate_arrival_time s d = some (d / (s * (1000 / 3600)))) := by
  refine ⟨?_, ?_, ?_, ?_, ?_⟩
  · simp only [calculate_arrival_time]
    split_ifs with h1 h2
    · simp [h1]
    · push_neg at h1
      exact absurd h2 (not_le.mpr (mul_pos h1.1 (by norm_num)))
    · simp [h1]
  · intro hs hd
    simp only [calculate_arrival_time]
    rw [if_neg (by push_neg; exact ⟨hs, hd⟩),
      if_neg (not_le.mpr (mul_pos hs (by norm_num)))]
  · intro h1 h2
    simp only [calculate_arrival_time, h1, h2]
    norm_num
  · simp only [fsm_calculate_arrival_time]
    split_ifs with h1 h2
    · simp [h1]
    · push_neg at h1
      exact absurd h2 (not_le.mpr (mul_pos h1 (by norm_num)))
    · simp [h1]
  · intro hs
    simp only [fsm_calculate_arrival_time]
    rw [if_neg (not_le.mpr hs), if_neg (not_le.mpr (mul_pos hs (by norm_num)))]

/-- Witness for C6 (amended) at speed 100 km/h, distance 500 m. -/
theorem claim_C6_witness :
    calculate_arrival_time
      { initCrossing with train_speed := 100, train_distance := 500 } = some 18
    ∧ fsm_calculate_arrival_time 100 500 = some (500 / (100 * (1000 / 3600))) :=
  ⟨(claim_C6_amended { initCrossing with train_speed := 100, train_distance := 500 }
      100 500).2.2.1 rfl rfl,
   (claim_C6_amended initCrossing 100 500).2.2.2.2 (by norm_num)⟩

/-! ### Claim C8 -/

theorem healthOf_setHealth_same (h : ComponentHealth) (k : Component) (v : Nat) :
    healthOf (setHealth h k v) k = v := by
  cases k <;> rfl

theorem healthOf_setHealth_other (h : ComponentHealth) (k k2 : Component) (v : Nat)
    (hne : k2 ≠ k) : healthOf (setHealth h k v) k2 = healthOf h k2 := by
  cases k <;> cases k2 <;> simp_all [healthOf, setHealth]

theorem transition_health_step (c : Crossing) (t : CState) (now : ℚ) (o : WearOracle)
    (hinv : HealthInv c) :
    HealthInv (transition c t now o).2
    ∧ (∀ k, healthOf (transition c t now o).2.component_health k
        ≤ healthOf c.component_health k) := by
  have hch := transition_component_health c t now o
  by_cases hcond : t ∈ allowedTargets c.state ∧ o.degrade = true
  · rw [if_pos hcond] at hch
    constructor
    · intro k
      rw [hch]
      by_cases hk : k = o.comp
      · subst hk
        rw [healthOf_setHealth_same]
        exact le_max_left _ _
      · rw [healthOf_setHealth_other _ _ _ _ hk]
        exact hinv k
    · intro k
      rw [hch]
      by_cases hk : k = o.comp
      · subst hk
        rw [healthOf_setHealth_same]
        exact max_le (hinv _) (Nat.sub_le _ _)
      · rw [healthOf_setHealth_other _ _ _ _ hk]
  · rw [if_neg hcond] at hch
    exact ⟨fun k => hch ▸ hinv k, fun k => hch ▸ le_refl _⟩

theorem fold_health (steps : List (CState × ℚ × WearOracle)) :
    ∀ (c : Crossing), HealthInv c →
      HealthInv (steps.foldl (fun a st => (transition a st.1 st.2.1 st.2.2).2) c)
      ∧ (∀ k, healthOf
          ((steps.foldl (fun a st => (transition a st.1 st.2.1 st.2.2).2) c).component_health) k
          ≤ healthOf c.component_health k) := by
  induction steps with
  | nil => exact fun c h => ⟨h, fun k => le_refl _⟩
  | cons st steps ih =>
    intro c h
    obtain ⟨hi, hle⟩ := transition_health_step c st.1 st.2.1 st.2.2 h
    obtain ⟨hi2, hle2⟩ := ih (transition c st.1 st.2.1 st.2.2).2 hi
    exact ⟨hi2, fun k => (hle2 k).trans (hle k)⟩

/-- Claim C8: starting from any crossing whose component healths are all
≥ 50 (as at initialization, 100), every transition keeps every component
health ≥ 50 and non-increasing; when the wear draw fires on a successful
transition it lowers exactly the drawn component to
`max 50 (old - amount)` with `1 ≤ amount ≤ 3` (so by at most 3, strictly
when above the floor), otherwise every component is unchanged; and across
any sequence of transitions the healths stay ≥ 50 and ≤ their starting
values. -/
theorem claim_C8 (c : Crossing) (t : CState) (now : ℚ) (o : WearOracle)
    (hinv : HealthInv c) (h1 : 1 ≤ o.amount) (h3 : o.amount ≤ 3) :
    (∀ k, 50 ≤ healthOf (transition c t now o).2.component_health k)
    ∧ (∀ k, healthOf (transition c t now o).2.component_health k
        ≤ healthOf c.component_health k)
    ∧ (t ∈ allowedTargets c.state ∧ o.degrade = true →
        (∀ k, k ≠ o.comp →
          healthOf (transition c t now o).2.component_health k
            = healthOf c.component_health k)
        ∧ healthOf (transition c t now o).2.component_health o.comp
            = max 50 (healthOf c.component_health o.comp - o.amount)
        ∧ healthOf c.component_health o.comp - 3
            ≤ healthOf (transition c t now o).2.component_health o.comp
        ∧ (50 < healthOf c.component_health o.comp →
            healthOf (transition c t now o).2.component_health o.comp
              < healthOf c.component_health o.comp))
    ∧ (¬ (t ∈ allowedTargets c.state ∧ o.degrade = true) →
        ∀ k, healthOf (transition c t now o).2.component_health k
          = healthOf c.component_health k)
    ∧ (∀ (steps : List (CState × ℚ × WearOracle)),
        (∀ k, 50 ≤ healthOf
          ((steps.foldl (fun a st => (transition a st.1 st.2.1 st.2.2).2) c).component_health) k)
        ∧ (∀ k, healthOf
            ((steps.foldl (fun a st => (transition a st.1 st.2.1 st.2.2).2) c).component_health) k
            ≤ healthOf c.component_health k)) := by
  have hch := transition_component_health c t now o
  obtain ⟨hkeep, hmono⟩ := transition_health_step c t now o hinv
  refine ⟨hkeep, hmono, ?_, ?_, ?_⟩
  · intro hcond
    rw [if_pos hcond] at hch
    have hsame : healthOf (transition c t now o).2.component_health o.comp
        = max 50 (healthOf c.component_health o.comp - o.amount) := by
      rw [hch, healthOf_setHealth_same]
    refine ⟨?_, hsame, ?_, ?_⟩
    · intro k hk
      rw [hch, healthOf_setHealth_other _ _ _ _ hk]
    · rw [hsame]
      have : healthOf c.component_health o.comp - 3
          ≤ healthOf c.component_health o.comp - o.amount :=
        Nat.sub_le_sub_left h3 _
      exact this.trans (le_max_right _ _)
    · intro hgt
      rw [hsame]
      have h50 : 50 ≤ healthOf c.component_health o.comp - o.amount ∨
          healthOf c.component_health o.comp - o.amount < 50 := le_or_lt _ _
      rcases h50 with hbig | hsmall
      · rw [max_eq_right hbig]
        omega
      · rw [max_eq_left (le_of_lt hsmall)]
        exact hgt
  · intro hcond
    rw [if_neg hcond] at hch
    intro k
    rw [hch]
  · intro steps
    exact fold_health steps c hinv

/-- Witness for C8: a wear draw of 2 on the barrier motor during a
successful IDLE → WARNING transition lowers it from 100 to 98. -/
theorem claim_C8_witness :
    healthOf (transition initCrossing CState.WARNING 0 degradeOracle).2.component_health
      Component.barrier_motor = 98 := by
  have h := ((claim_C8 initCrossing CState.WARNING 0 degradeOracle
    (fun k => by cases k <;> decide) (by decide) (by decide)).2.2.1
    (by exact ⟨by decide, rfl⟩)).2.1
  exact h.trans (by decide)


/-! ### System-level helper lemmas -/

theorem process_command_invalid (sys : RailwaySystem) (crossing_id : Int) (cmd : String)
    (params : Option Params) (now : ℚ) (o : Nat → WearOracle)
    (hbounds : crossing_id < 0 ∨ (sys.crossings.length : Int) ≤ crossing_id) :
    process_command sys crossing_id cmd params now o =
      (CmdResult.err ("Invalid crossing ID: " ++ toString crossing_id), sys) := by
  unfold process_command
  rw [if_pos hbounds]

theorem process_command_unknown (sys : RailwaySystem) (crossing_id : Int) (cmd : String)
    (params : Option Params) (now : ℚ) (o : Nat → WearOracle)
    (hbounds : ¬ (crossing_id < 0 ∨ (sys.crossings.length : Int) ≤ crossing_id))
    (hr : runCommand sys crossing_id.toNat cmd params now o = none) :
    process_command sys crossing_id cmd params now o =
      (CmdResult.err ("Unknown command: " ++ cmd), sys) := by
  unfold process_command
  rw [if_neg hbounds, hr]

theorem process_command_some (sys : RailwaySystem) (crossing_id : Int) (cmd : String)
    (params : Option Params) (now : ℚ) (o : Nat → WearOracle) (b : Bool)
    (sys1 : RailwaySystem)
    (hbounds : ¬ (crossing_id < 0 ∨ (sys.crossings.length : Int) ≤ crossing_id))
    (hr : runCommand sys crossing_id.toNat cmd params now o = some (b, sys1)) :
    process_command sys crossing_id cmd params now o =
      (CmdResult.ok b (sys1.crossings.getD crossing_id.toNat initCrossing).state,
       { sys1 with statistics := bumpStats sys1.statistics b }) := by
  unfold process_command
  rw [if_neg hbounds, hr]

theorem getD_set_self (l : List Crossing) (i : Nat) (x d : Crossing)
    (h : i < l.length) : (l.set i x).getD i d = x := by
  induction l generalizing i with
  | nil => exact absurd h (by simp)
  | cons c rest ih =>
    cases i with
    | zero => rfl
    | succ j => exact ih j (by simpa using h)

theorem mapWithIdx_getD (f : Nat → Crossing → Crossing) (d : Crossing) :
    ∀ (l : List Crossing) (k j : Nat), j < l.length →
      (mapWithIdx f k l).getD j d = f (k + j) (l.getD j d)
  | [], _, j, h => absurd h (by simp)
  | c :: rest, k, 0, _ => by simp [mapWithIdx]
  | c :: rest, k, j + 1, h => by
    have := mapWithIdx_getD f d rest (k + 1) j (by simpa using h)
    simpa [mapWithIdx, Nat.add_assoc, Nat.add_comm 1 j] using this

@[simp] theorem applyGlobalWeather_crossings (sys : RailwaySystem) (ow : Option Weather) :
    (applyGlobalWeather sys ow).crossings = sys.crossings := by
  cases ow <;> rfl

@[simp] theorem applyGlobalWeather_statistics (sys : RailwaySystem) (ow : Option Weather) :
    (applyGlobalWeather sys ow).statistics = sys.statistics := by
  cases ow <;> rfl

@[simp] theorem setCrossing_statistics (sys : RailwaySystem) (i : Nat) (c : Crossing) :
    (setCrossing sys i c).statistics = sys.statistics := rfl

theorem runCommand_statistics (sys : RailwaySystem) (i : Nat) (cmd : String)
    (params : Option Params) (now : ℚ) (o : Nat → WearOracle)
    (r : Bool × RailwaySystem) (hr : runCommand sys i cmd params now o = some r) :
    r.2.statistics = sys.statistics := by
  unfold runCommand at hr
  split at hr
  case _ =>
    injection hr with hr
    rw [← hr]
    unfold cmdApproach
    simp
  case _ =>
    injection hr with hr
    rw [← hr]
    rfl
  case _ =>
    injection hr with hr
    rw [← hr]
    rfl
  case _ =>
    injection hr with hr
    rw [← hr]
    unfold cmdTrainPass
    split <;> rfl
  case _ =>
    injection hr with hr
    rw [← hr]
    unfold cmdReset
    split <;> rfl
  case _ =>
    injection hr with hr
    rw [← hr]
    rfl
  case _ =>
    injection hr with hr
    rw [← hr]
    unfold cmdMaintenance
    split <;> rfl
  case _ =>
    injection hr with hr
    rw [← hr]
    rfl
  case _ =>
    injection hr with hr
    rw [← hr]
    rfl
  case _ =>
    exact Option.noConfusion hr

/-! ### Claim C3 -/

theorem emergency_mem_iff (st : CState) :
    CState.EMERGENCY ∈ allowedTargets st ↔
      (st ≠ CState.EMERGENCY ∧ st ≠ CState.MAINTENANCE) := by
  cases st <;> simp [allowedTargets]

theorem transition_emergency_position (c : Crossing) (now : ℚ) (o : WearOracle)
    (h : CState.EMERGENCY ∈ allowedTargets c.state) :
    (transition c CState.EMERGENCY now o).2.train_position = -100 := by
  unfold transition
  rw [if_pos h]
  simp [update_outputs]

theorem cmdEmergency_getD (sys : RailwaySystem) (now : ℚ) (o : Nat → WearOracle)
    (j : Nat) (hj : j < sys.crossings.length) :
    (cmdEmergency sys now o).2.crossings.getD j initCrossing =
      (transition (sys.crossings.getD j initCrossing)
        (if !sys.global_state.emergency then CState.EMERGENCY else CState.IDLE)
        now (o j)).2 := by
  show (mapWithIdx (fun j2 cj => (transition cj
      (if !sys.global_state.emergency then CState.EMERGENCY else CState.IDLE)
      now (o j2)).2) 0 sys.crossings).getD j initCrossing = _
  rw [mapWithIdx_getD _ _ _ _ _ hj, Nat.zero_add]

/-- Counterexample to C3 as stated, in both halves.  First: from the fresh
system move crossing 0 to MAINTENANCE, then issue `emergency` — the flag
becomes active but crossing 0 stays in MAINTENANCE (MAINTENANCE → EMERGENCY
is not in the table), not EMERGENCY as claimed.  Second: from the fresh
system enter the emergency, reset crossing 0 and walk it to COUNTDOWN while
the flag is still active, then issue `emergency` again — the flag clears but
crossing 0 stays in COUNTDOWN (COUNTDOWN → IDLE is not in the table), not
IDLE as claimed. -/
theorem claim_C3_counterexample :
    ((process_command (process_command initSystem 0 "maintenance" none 0 wOracleN).2
        0 "emergency" none 1 wOracleN).2.global_state.emergency = true
      ∧ ((process_command (process_command initSystem 0 "maintenance" none 0 wOracleN).2
          0 "emergency" none 1 wOracleN).2.crossings.getD 0 initCrossing).state
          = CState.MAINTENANCE)
    ∧ ((process_command (process_command (process_command (process_command
        (process_command initSystem 0 "emergency" none 0 wOracleN).2
        0 "reset" none 1 wOracleN).2
        0 "approach" none 2 wOracleN).2
        0 "countdown" none 3 wOracleN).2
        0 "emergency" none 4 wOracleN).2.global_state.emergency = false
      ∧ ((process_command (process_command (process_command (process_command
          (process_command initSystem 0 "emergency" none 0 wOracleN).2
          0 "reset" none 1 wOracleN).2
          0 "approach" none 2 wOracleN).2
          0 "countdown" none 3 wOracleN).2
          0 "emergency" none 4 wOracleN).2.crossings.getD 0 initCrossing).state
          = CState.COUNTDOWN) := by
  refine ⟨⟨by decide, by decide⟩, by decide, by decide⟩

/-- Claim C3, amended: with a valid crossing id, issuing `emergency` while
the flag is inactive sets the flag and attempts EMERGENCY on every crossing:
a crossing enters EMERGENCY (with barrier UP and train_position −100)
exactly when EMERGENCY is reachable from its state, i.e. unless it is
already in EMERGENCY or in MAINTENANCE, in which case it is left unchanged.
Issuing it while the flag is active clears the flag and attempts IDLE on
every crossing: a crossing moves to IDLE exactly when IDLE is reachable from
its current state (WARNING, TRAIN_PASSING, EMERGENCY, MAINTENANCE);
crossings in IDLE stay IDLE, but crossings in COUNTDOWN or BARRIER_DOWN keep
their state. -/
theorem claim_C3_amended (sys : RailwaySystem) (crossing_id : Int)
    (params : Option Params) (now : ℚ) (o : Nat → WearOracle)
    (hlo : 0 ≤ crossing_id) (hhi : crossing_id < (sys.crossings.length : Int)) :
    (sys.global_state.emergency = false →
      (process_command sys crossing_id "emergency" params now o).2.global_state.emergency
          = true
      ∧ ∀ j, j < sys.crossings.length →
          ((sys.crossings.getD j initCrossing).state ≠ CState.EMERGENCY →
            (sys.crossings.getD j initCrossing).state ≠ CState.MAINTENANCE →
            ((process_command sys crossing_id "emergency" params now o).2.crossings.getD j
                initCrossing).state = CState.EMERGENCY
            ∧ ((process_command sys crossing_id "emergency" params now o).2.crossings.getD j
                initCrossing).barrier = "UP"
            ∧ ((process_command sys crossing_id "emergency" params now o).2.crossings.getD j
                initCrossing).train_position = -100)
          ∧ ((sys.crossings.getD j initCrossing).state = CState.EMERGENCY ∨
              (sys.crossings.getD j initCrossing).state = CState.MAINTENANCE →
            (process_command sys crossing_id "emergency" params now o).2.crossings.getD j
                initCrossing = sys.crossings.getD j initCrossing))
    ∧ (sys.global_state.emergency = true →
      (process_command sys crossing_id "emergency" params now o).2.global_state.emergency
          = false
      ∧ ∀ j, j < sys.crossings.length →
          ((process_command sys crossing_id "emergency" params now o).2.crossings.getD j
              initCrossing).state =
            (if CState.IDLE ∈ allowedTargets (sys.crossings.getD j initCrossing).state
             then CState.IDLE else (sys.crossings.getD j initCrossing).state)) := by
  have hbounds : ¬ (crossing_id < 0 ∨ (sys.crossings.length : Int) ≤ crossing_id) := by
    push_neg
    exact ⟨hlo, hhi⟩
  have hr : runCommand sys crossing_id.toNat "emergency" params now o =
      some ((cmdEmergency sys now o).1, (cmdEmergency sys now o).2) := rfl
  have hpc := process_command_some sys crossing_id "emergency" params now o _ _ hbounds hr
  constructor
  · intro hflag
    have htgt : (if !sys.global_state.emergency then CState.EMERGENCY else CState.IDLE)
        = CState.EMERGENCY := by rw [hflag]; rfl
    constructor
    · rw [hpc]
      simp [cmdEmergency, bumpStats, hflag]
    · intro j hj
      have hget : (process_command sys crossing_id "emergency" params now o).2.crossings.getD j
          initCrossing =
          (transition (sys.crossings.getD j initCrossing) CState.EMERGENCY now (o j)).2 := by
        rw [hpc]
        show (cmdEmergency sys now o).2.crossings.getD j initCrossing = _
        rw [cmdEmergency_getD sys now o j hj, htgt]
      constructor
      · intro hne hnm
        have hmem := (emergency_mem_iff _).mpr ⟨hne, hnm⟩
        rw [hget]
        refine ⟨transition_mem_state _ _ _ _ hmem, ?_,
          transition_emergency_position _ _ _ hmem⟩
        rw [transition_mem_barrier _ _ _ _ hmem]
        rfl
      · intro heq
        have hnm : CState.EMERGENCY ∉ allowedTargets (sys.crossings.getD j initCrossing).state := by
          intro hmem
          rcases (emergency_mem_iff _).mp hmem with ⟨h1, h2⟩
          rcases heq with h | h
          · exact h1 h
          · exact h2 h
        rw [hget, transition_not_mem _ _ _ _ hnm]
  · intro hflag
    have htgt : (if !sys.global_state.emergency then CState.EMERGENCY else CState.IDLE)
        = CState.IDLE := by rw [hflag]; rfl
    constructor
    · rw [hpc]
      simp [cmdEmergency, bumpStats, hflag]
    · intro j hj
      have hget : (process_command sys crossing_id "emergency" params now o).2.crossings.getD j
          initCrossing =
          (transition (sys.crossings.getD j initCrossing) CState.IDLE now (o j)).2 := by
        rw [hpc]
        show (cmdEmergency sys now o).2.crossings.getD j initCrossing = _
        rw [cmdEmergency_getD sys now o j hj, htgt]
      rw [hget]
      by_cases hmem : CState.IDLE ∈ allowedTargets (sys.crossings.getD j initCrossing).state
      · rw [if_pos hmem]
        exact transition_mem_state _ _ _ _ hmem
      · rw [if_neg hmem, transition_not_mem _ _ _ _ hmem]

/-- Witness for C3 (amended): on the fresh system the first emergency call
sets the flag and crossing 0 (previously IDLE) enters EMERGENCY. -/
theorem claim_C3_witness :
    (process_command initSystem 0 "emergency" none 0 wOracleN).2.global_state.emergency = true
    ∧ ((process_command initSystem 0 "emergency" none 0 wOracleN).2.crossings.getD 0
        initCrossing).state = CState.EMERGENCY
    ∧ ((process_command initSystem 0 "emergency" none 0 wOracleN).2.crossings.getD 0
        initCrossing).train_position = -100 := by
  have h := (claim_C3_amended initSystem 0 none 0 wOracleN (by decide) (by decide)).1 rfl
  have h0 := (h.2 0 (by decide)).1 (by decide) (by decide)
  exact ⟨h.1, h0.1, h0.2.2⟩


/-! ### Claim C7 -/

/-- Claim C7 evaluation, exhibiting the code bug: `clear_faults` is
idempotent and leaves the fault list empty with ir/vibration/rfid healthy,
but it replaces `sensor_health` by a three-key dict, so the `ultrasonic`
sensor that `__init__` creates (healthy) is no longer mapped at all —
contradicting both the claim and the four-sensor initialization. -/
theorem claim_C7_code_bug :
    dictGet initCrossing.sensor_health "ultrasonic" = some true
    ∧ (let c1 := (process_command initSystem 0 "clear_faults" none 0
          wOracleN).2.crossings.getD 0 initCrossing
       let c2 := (process_command
          (process_command initSystem 0 "clear_faults" none 0 wOracleN).2
          0 "clear_faults" none 1 wOracleN).2.crossings.getD 0 initCrossing
       c1.faults = [] ∧ c2.faults = []
       ∧ dictGet c1.sensor_health "ir" = some true
       ∧ dictGet c1.sensor_health "vibration" = some true
       ∧ dictGet c1.sensor_health "rfid" = some true
       ∧ c2.sensor_health = c1.sensor_health
       ∧ dictGet c1.sensor_health "ultrasonic" = none
       ∧ dictGet c2.sensor_health "ultrasonic" = none) := by
  decide

/-! ### Claim C9 -/

theorem runCommand_known (sys : RailwaySystem) (i : Nat) (cmd : String)
    (params : Option Params) (now : ℚ) (o : Nat → WearOracle)
    (h : cmd ∈ knownCommands) :
    ∃ r, runCommand sys i cmd params now o = some r := by
  simp only [knownCommands, List.mem_cons, List.not_mem_nil, or_false] at h
  rcases h with rfl | rfl | rfl | rfl | rfl | rfl | rfl | rfl | rfl <;> exact ⟨_, rfl⟩

theorem runCommand_unknown (sys : RailwaySystem) (i : Nat) (cmd : String)
    (params : Option Params) (now : ℚ) (o : Nat → WearOracle)
    (h : cmd ∉ knownCommands) :
    runCommand sys i cmd params now o = none := by
  unfold runCommand
  split
  case _ => exact absurd (by simp [knownCommands]) h
  case _ => exact absurd (by simp [knownCommands]) h
  case _ => exact absurd (by simp [knownCommands]) h
  case _ => exact absurd (by simp [knownCommands]) h
  case _ => exact absurd (by simp [knownCommands]) h
  case _ => exact absurd (by simp [knownCommands]) h
  case _ => exact absurd (by simp [knownCommands]) h
  case _ => exact absurd (by simp [knownCommands]) h
  case _ => exact absurd (by simp [knownCommands]) h
  case _ => rfl

/-- Counterexample to C9 as stated: an unknown command (valid crossing id)
and an invalid crossing id both return a structured failure WITHOUT touching
the statistics counters, whereas the claim says every command submitted to
`process_command` increments `total_operations`. -/
theorem claim_C9_counterexample :
    (process_command initSystem 0 "open_sesame" none 0 wOracleN).1
      = CmdResult.err "Unknown command: open_sesame"
    ∧ (process_command initSystem 0 "open_sesame" none 0
        wOracleN).2.statistics.total_operations = 0
    ∧ (process_command initSystem (-1) "reset" none 0
        wOracleN).2.statistics.total_operations = 0
    ∧ (process_command initSystem 0 "open_sesame" none 0 wOracleN).2 = initSystem
    ∧ (process_command initSystem (-1) "reset" none 0 wOracleN).2 = initSystem := by
  refine ⟨by decide, by decide, by decide, by decide, by decide⟩

/-- Claim C9, amended: a recognized command on a valid crossing id always
returns an `ok` result and updates the statistics — `total_operations` rises
by exactly 1 and exactly one of `successful_transitions` /
`failed_transitions` rises by exactly 1 — regardless of whether the
underlying transition succeeded.  An unknown command or an out-of-range
crossing id returns a structured failure result with an error message and
leaves the system (statistics included) untouched; `process_command` is a
total function, returning a structured result on every input. -/
theorem claim_C9_amended (sys : RailwaySystem) (crossing_id : Int) (cmd : String)
    (params : Option Params) (now : ℚ) (o : Nat → WearOracle) :
    (cmd ∈ knownCommands →
      ¬ (crossing_id < 0 ∨ (sys.crossings.length : Int) ≤ crossing_id) →
      (∃ b st, (process_command sys crossing_id cmd params now o).1 = CmdResult.ok b st)
      ∧ (process_command sys crossing_id cmd params now o).2.statistics.total_operations
          = sys.statistics.total_operations + 1
      ∧ (((process_command sys crossing_id cmd params now o).2.statistics.successful_transitions
            = sys.statistics.successful_transitions + 1
          ∧ (process_command sys crossing_id cmd params now o).2.statistics.failed_transitions
            = sys.statistics.failed_transitions)
        ∨ ((process_command sys crossing_id cmd params now o).2.statistics.failed_transitions
            = sys.statistics.failed_transitions + 1
          ∧ (process_command sys crossing_id cmd params now o).2.statistics.successful_transitions
            = sys.statistics.successful_transitions)))
    ∧ (cmd ∉ knownCommands ∨ crossing_id < 0 ∨ (sys.crossings.length : Int) ≤ crossing_id →
        (∃ m, (process_command sys crossing_id cmd params now o).1 = CmdResult.err m)
        ∧ (process_command sys crossing_id cmd params now o).2 = sys) := by
  constructor
  · intro hknown hbounds
    obtain ⟨r, hr⟩ := runCommand_known sys crossing_id.toNat cmd params now o hknown
    rcases r with ⟨b, sys1⟩
    have hst : sys1.statistics = sys.statistics :=
      runCommand_statistics sys crossing_id.toNat cmd params now o (b, sys1) hr
    have hpc := process_command_some sys crossing_id cmd params now o b sys1 hbounds hr
    rw [hpc]
    refine ⟨⟨b, _, rfl⟩, ?_, ?_⟩
    · show (bumpStats sys1.statistics b).total_operations = _
      cases b <;> simp [bumpStats, hst]
    · cases b
      · right
        constructor
        · show (bumpStats sys1.statistics false).failed_transitions = _
          simp [bumpStats, hst]
        · show (bumpStats sys1.statistics false).successful_transitions = _
          simp [bumpStats, hst]
      · left
        constructor
        · show (bumpStats sys1.statistics true).successful_transitions = _
          simp [bumpStats, hst]
        · show (bumpStats sys1.statistics true).failed_transitions = _
          simp [bumpStats, hst]
  · intro h
    by_cases hbounds : crossing_id < 0 ∨ (sys.crossings.length : Int) ≤ crossing_id
    · rw [process_command_invalid sys crossing_id cmd params now o hbounds]
      exact ⟨⟨_, rfl⟩, rfl⟩
    · have hunknown : cmd ∉ knownCommands := by
        rcases h with h | h | h
        · exact h
        · exact absurd (Or.inl h) hbounds
        · exact absurd (Or.inr h) hbounds
      rw [process_command_unknown sys crossing_id cmd params now o hbounds
        (runCommand_unknown _ _ _ _ _ _ hunknown)]
      exact ⟨⟨_, rfl⟩, rfl⟩

/-- Witness for C9 (amended): `countdown` on the fresh system (IDLE, so the
transition fails) still bumps total_operations to 1. -/
theorem claim_C9_witness :
    (process_command initSystem 0 "countdown" none 0
      wOracleN).2.statistics.total_operations
      = initSystem.statistics.total_operations + 1 :=
  ((claim_C9_amended initSystem 0 "countdown" none 0 wOracleN).1
    (by decide) (by decide)).2.1


/-! ### Claim C10 -/

theorem approachResultCrossing_speed (c : Crossing) (params : Option Params)
    (now : ℚ) (w : WearOracle) :
    (approachResultCrossing c params now w).train_speed
      = (approachSetParams c params).1.train_speed := by
  unfold approachResultCrossing
  split <;> simp [transition_train_speed]

theorem approachResultCrossing_distance (c : Crossing) (params : Option Params)
    (now : ℚ) (w : WearOracle) :
    (approachResultCrossing c params now w).train_distance
      = (approachSetParams c params).1.train_distance := by
  unfold approachResultCrossing
  split <;> simp [transition_train_distance]

theorem approachResultCrossing_weather (c : Crossing) (params : Option Params)
    (now : ℚ) (w : WearOracle) :
    (approachResultCrossing c params now w).weather
      = (approachSetParams c params).1.weather := by
  unfold approachResultCrossing
  split <;> simp [transition_weather]

theorem approachSetParams_falsy (c : Crossing) (params : Option Params)
    (h : params = none ∨ ∃ p, params = some p ∧ p.isTruthy = false) :
    approachSetParams c params = (c, none) := by
  rcases h with rfl | ⟨p, rfl, hp⟩
  · rfl
  · simp only [approachSetParams]
    rw [if_neg (by simp [hp])]

theorem approachSetParams_speed (c : Crossing) (p : Params) (hp : p.isTruthy = true) :
    (approachSetParams c (some p)).1.train_speed = p.train_speed.getD 60 := by
  simp only [approachSetParams]
  rw [if_pos hp]
  rcases hw : p.weather with _ | ws
  · simp [hw]
  · rcases hpw : parseWeather ws with _ | w2 <;> simp [hw, hpw]

theorem approachSetParams_distance (c : Crossing) (p : Params) (hp : p.isTruthy = true) :
    (approachSetParams c (some p)).1.train_distance = p.train_distance.getD 200 := by
  simp only [approachSetParams]
  rw [if_pos hp]
  rcases hw : p.weather with _ | ws
  · simp [hw]
  · rcases hpw : parseWeather ws with _ | w2 <;> simp [hw, hpw]

theorem approachSetParams_weather_bad (c : Crossing) (p : Params) (hp : p.isTruthy = true)
    (ws : String) (hw : p.weather = some ws) (hbad : parseWeather ws = none) :
    (approachSetParams c (some p)).1.weather = Weather.CLEAR := by
  simp only [approachSetParams]
  rw [if_pos hp]
  simp [hw, hbad]

/-- Claim C10: for `approach` on a valid crossing id, an absent or empty
params dict leaves train_speed and train_distance unchanged; a non-empty
params dict sets them to the supplied values, defaulting to 60.0 and 200.0
when the keys are missing; and a supplied but unrecognized weather string
falls back to CLEAR. -/
theorem claim_C10 (sys : RailwaySystem) (crossing_id : Int) (params : Option Params)
    (now : ℚ) (o : Nat → WearOracle)
    (hlo : 0 ≤ crossing_id) (hhi : crossing_id < (sys.crossings.length : Int)) :
    ((params = none ∨ ∃ p, params = some p ∧ p.isTruthy = false) →
      ((process_command sys crossing_id "approach" params now o).2.crossings.getD
          crossing_id.toNat initCrossing).train_speed
        = (sys.crossings.getD crossing_id.toNat initCrossing).train_speed
      ∧ ((process_command sys crossing_id "approach" params now o).2.crossings.getD
          crossing_id.toNat initCrossing).train_distance
        = (sys.crossings.getD crossing_id.toNat initCrossing).train_distance)
    ∧ (∀ p, params = some p → p.isTruthy = true →
        ((process_command sys crossing_id "approach" params now o).2.crossings.getD
            crossing_id.toNat initCrossing).train_speed = p.train_speed.getD 60
        ∧ ((process_command sys crossing_id "approach" params now o).2.crossings.getD
            crossing_id.toNat initCrossing).train_distance = p.train_distance.getD 200
        ∧ (∀ ws, p.weather = some ws → parseWeather ws = none →
            ((process_command sys crossing_id "approach" params now o).2.crossings.getD
                crossing_id.toNat initCrossing).weather = Weather.CLEAR)) := by
  have hbounds : ¬ (crossing_id < 0 ∨ (sys.crossings.length : Int) ≤ crossing_id) := by
    push_neg
    exact ⟨hlo, hhi⟩
  have hlen : crossing_id.toNat < sys.crossings.length := by omega
  have hr : runCommand sys crossing_id.toNat "approach" params now o =
      some ((cmdApproach sys crossing_id.toNat params now (o crossing_id.toNat)).1,
            (cmdApproach sys crossing_id.toNat params now (o crossing_id.toNat)).2) := rfl
  have hpc := process_command_some sys crossing_id "approach" params now o _ _ hbounds hr
  have hget : (process_command sys crossing_id "approach" params now o).2.crossings.getD
      crossing_id.toNat initCrossing =
      approachResultCrossing (sys.crossings.getD crossing_id.toNat initCrossing) params now
        (o crossing_id.toNat) := by
    rw [hpc]
    show (applyGlobalWeather
        (setCrossing sys crossing_id.toNat
          (approachResultCrossing (sys.crossings.getD crossing_id.toNat initCrossing)
            params now (o crossing_id.toNat)))
        (approachSetParams (sys.crossings.getD crossing_id.toNat initCrossing)
          params).2).crossings.getD crossing_id.toNat initCrossing = _
    rw [applyGlobalWeather_crossings]
    show (sys.crossings.set crossing_id.toNat _).getD crossing_id.toNat initCrossing = _
    exact getD_set_self _ _ _ _ hlen
  constructor
  · intro hfalsy
    rw [hget, approachResultCrossing_speed, approachResultCrossing_distance,
      approachSetParams_falsy _ _ hfalsy]
    exact ⟨rfl, rfl⟩
  · intro p hp htruthy
    subst hp
    rw [hget, approachResultCrossing_speed, approachResultCrossing_distance,
      approachSetParams_speed _ _ htruthy, approachSetParams_distance _ _ htruthy]
    refine ⟨rfl, rfl, ?_⟩
    intro ws hw hbad
    rw [approachResultCrossing_weather,
      approachSetParams_weather_bad _ _ htruthy ws hw hbad]

/-- Witness for C10: params with train_speed 90, no train_distance and the
unrecognized weather string "zzz" set speed 90, the default distance 200,
and CLEAR weather. -/
theorem claim_C10_witness :
    ((process_command initSystem 0 "approach"
        (some ⟨some 90, none, some "zzz", none, 0⟩) 0
        wOracleN).2.crossings.getD 0 initCrossing).train_speed = 90
    ∧ ((process_command initSystem 0 "approach"
        (some ⟨some 90, none, some "zzz", none, 0⟩) 0
        wOracleN).2.crossings.getD 0 initCrossing).train_distance = 200
    ∧ ((process_command initSystem 0 "approach"
        (some ⟨some 90, none, some "zzz", none, 0⟩) 0
        wOracleN).2.crossings.getD 0 initCrossing).weather = Weather.CLEAR := by
  have h := (claim_C10 initSystem 0 (some ⟨some 90, none, some "zzz", none, 0⟩) 0 wOracleN
    (by decide) (by decide)).2 ⟨some 90, none, some "zzz", none, 0⟩ rfl (by decide)
  exact ⟨h.1, h.2.1, h.2.2 "zzz" rfl (by decide)⟩

end Railway
